import Mathlib

/-!
Verification development for the HyperEVM LP monitor.

This file gives a shallow embedding, in Lean 4, of the core algorithms of the
monitor: the pure pricing math of `utils.py`, the fee oracle and pool-data
cache and historical-entry resolver of `blockchain.py`, the RPC rate limiter
of `blockchain.py`, and the position-catalog reconciliation of
`position_monitor.py`.  Python floats are modelled as exact rationals, Python
ints as `Nat`/`Int`, Python dicts as association lists, and every RPC
interaction as an explicit environment/oracle argument.  Exceptions raised by
an oracle are modelled by `Option`/`Except` results; each embedded function is
total, mirroring the top-level `try`/`except` wrappers in the source.
-/

namespace LPMonitor

/-! ## Pricing math (`utils.py`) -/

/-- Result of a Python float computation that may be the IEEE infinity
produced by `float(\x27inf\x27)` in `tick_to_price`. -/
inductive PriceVal where
  | inf : PriceVal
  | val : ℚ → PriceVal
deriving Repr, DecidableEq

/-- Embedding of `utils.tick_to_price` (src/utils.py lines 93-115).  The float
`1.0001` is the exact rational `10001/10000`; float exponentiation is exact
rational exponentiation, so the `OverflowError` branch (which returns `0`)
is unreachable in the model. -/
def tick_to_price (tick : ℤ) (decimals0 decimals1 : ℤ) : PriceVal :=
  if 800000 < |tick| then
    if 800000 < tick then PriceVal.inf else PriceVal.val 0
  else
    PriceVal.val ((10001 / 10000 : ℚ) ^ tick * (10 : ℚ) ^ (decimals0 - decimals1))

/-- Embedding of `utils.calculate_token_amounts` (src/utils.py lines 15-45).
The call `math.sqrt` is abstracted as the argument `msqrt`, since the claims
about this function only concern its branch structure; all other arithmetic
is exact. -/
def calculate_token_amounts (msqrt : ℚ → ℚ) (liquidity : ℚ)
    (current_tick lower_tick upper_tick : ℤ) (decimals0 decimals1 : ℕ) : ℚ × ℚ :=
  let sqrt_current := msqrt ((10001 / 10000 : ℚ) ^ current_tick)
  let sqrt_lower := msqrt ((10001 / 10000 : ℚ) ^ lower_tick)
  let sqrt_upper := msqrt ((10001 / 10000 : ℚ) ^ upper_tick)
  let amounts : ℚ × ℚ :=
    if current_tick < lower_tick then
      (liquidity * (sqrt_upper - sqrt_lower) / (sqrt_lower * sqrt_upper), 0)
    else if upper_tick ≤ current_tick then
      (0, liquidity * (sqrt_upper - sqrt_lower))
    else
      (liquidity * (sqrt_upper - sqrt_current) / (sqrt_current * sqrt_upper),
       liquidity * (sqrt_current - sqrt_lower))
  (amounts.1 / 10 ^ decimals0, amounts.2 / 10 ^ decimals1)

/-- The fields of `check_position_status` relevant to range membership
(src/blockchain.py lines 1176-1205). -/
structure StatusPart where
  in_range : Bool
  amount0 : ℚ
  amount1 : ℚ
deriving Repr, DecidableEq

/-- Embedding of the range-membership and token-amount part of
`BlockchainManager.check_position_status` (src/blockchain.py lines 1176-1205):
`in_range = lower_tick <= current_tick <= upper_tick` followed by the call to
`calculate_token_amounts`. -/
def check_position_status_core (msqrt : ℚ → ℚ) (liquidity : ℚ)
    (tick_lower tick_upper current_tick : ℤ) (decimals0 decimals1 : ℕ) : StatusPart :=
  let in_range := decide (tick_lower ≤ current_tick) && decide (current_tick ≤ tick_upper)
  let amounts := calculate_token_amounts msqrt liquidity current_tick tick_lower tick_upper
    decimals0 decimals1
  { in_range := in_range, amount0 := amounts.1, amount1 := amounts.2 }

/-! ## Fee oracle (`blockchain.py`, `get_unclaimed_fees`) -/

/-- The `collect_params` dict built by `get_unclaimed_fees`
(src/blockchain.py lines 180-188). -/
structure CollectParams where
  tokenId : ℕ
  recipient : String
  amount0Max : ℕ
  amount1Max : ℕ
deriving Repr, DecidableEq

/-- The position fields consumed by `get_unclaimed_fees`. -/
structure FeePosition where
  token_id : ℕ
  position_manager : String
  token0_decimals : ℕ
  token1_decimals : ℕ
deriving Repr, DecidableEq

/-- The dict returned by `get_unclaimed_fees`: fee amounts in human units and
wei, the `has_fees` flag, and the error field attached only on failure. -/
structure FeeResult where
  fee_amount0 : ℚ
  fee_amount1 : ℚ
  fee_amount0_wei : ℕ
  fee_amount1_wei : ℕ
  has_fees : Bool
  error : Option String
deriving Repr, DecidableEq

/-- Construction of the parameters passed to the simulated `collect()` call:
`amount0Max = amount1Max = 2^128 - 1` and `recipient = wallet_address`
(src/blockchain.py lines 180-188). -/
def mk_collect_params (pos : FeePosition) (wallet : String) : CollectParams :=
  { tokenId := pos.token_id
    recipient := wallet
    amount0Max := 2 ^ 128 - 1
    amount1Max := 2 ^ 128 - 1 }

/-- Embedding of `BlockchainManager.get_unclaimed_fees` (src/blockchain.py
lines 172-233).  The state-simulating `collect().call(...)` is the oracle
`collectCall`; `Except.error e` models the call raising an exception with
message `e`. -/
def get_unclaimed_fees (collectCall : CollectParams → Except String (ℕ × ℕ))
    (pos : FeePosition) (wallet : String) : FeeResult :=
  match collectCall (mk_collect_params pos wallet) with
  | Except.ok (w0, w1) =>
      let fee0 : ℚ := (w0 : ℚ) / 10 ^ pos.token0_decimals
      let fee1 : ℚ := (w1 : ℚ) / 10 ^ pos.token1_decimals
      { fee_amount0 := fee0
        fee_amount1 := fee1
        fee_amount0_wei := w0
        fee_amount1_wei := w1
        has_fees := decide (0 < fee0) || decide (0 < fee1)
        error := none }
  | Except.error e =>
      { fee_amount0 := 0
        fee_amount1 := 0
        fee_amount0_wei := 0
        fee_amount1_wei := 0
        has_fees := false
        error := some e }

/-! ## Pool-data cache (`blockchain.py`, `get_pool_data_flexible`) -/

/-- The normalized pool-state dict produced by `get_pool_data_flexible`
(fields relevant to the cache claims). -/
structure PoolData where
  current_tick : ℤ
  sqrt_price_x96 : ℕ
  price : ℚ
  method : String
deriving Repr, DecidableEq

/-- Cache state of `BlockchainManager`: `_pool_cache` maps
`(pool_address, dex_type)` to `(data, fetch_time, block_number)`, and
`_last_cache_block` is the block recorded at the most recent cache write
(src/blockchain.py lines 42-44 and 235-257). -/
structure PoolCacheState where
  pool_cache : List ((String × String) × (PoolData × ℤ × Option ℕ))
  last_cache_block : Option ℕ
deriving Repr, DecidableEq

/-- Environment of one `get_pool_data_flexible` call: the result of the
`w3.eth.block_number` read (`none` models the read raising), the wall clock
`int(time.time())`, the outcome of the ABI/raw fetch paths (`none` models all
strategies failing), and how many RPC calls those fetch paths issue. -/
structure PoolFetchEnv where
  block_number : Option ℕ
  now_ts : ℤ
  fetch_result : Option PoolData
  fetch_rpc_count : ℕ
deriving Repr, DecidableEq

/-- The `_pool_cache_ttl_seconds` constant (src/blockchain.py line 43). -/
def pool_cache_ttl_seconds : ℤ := 5

/-- Embedding of the caching skeleton of
`BlockchainManager.get_pool_data_flexible` (src/blockchain.py lines 235-438).
The returned `ℕ` counts RPC calls issued by this invocation: the
unconditional `self.w3.eth.block_number` read costs 1 (issued before the
cache is consulted), and a cache miss additionally issues the fetch paths
(`env.fetch_rpc_count` calls).  A successful fetch is stored through
`_cache_and_return`, which also updates `_last_cache_block`. -/
def get_pool_data_flexible (st : PoolCacheState) (env : PoolFetchEnv)
    (pool_address dex_type : String) : Option PoolData × PoolCacheState × ℕ :=
  if pool_address = "" then (none, st, 0)
  else
    let block_number := env.block_number
    let cache_key := (pool_address, dex_type)
    let hit : Option PoolData :=
      match st.pool_cache.lookup cache_key with
      | some (data, ts, blk) =>
          if env.now_ts - ts ≤ pool_cache_ttl_seconds ∧
              (st.last_cache_block = blk ∨ blk = none) then
            some data
          else none
      | none => none
    match hit with
    | some data => (some data, st, 1)
    | none =>
        match env.fetch_result with
        | some result =>
            (some result,
             { pool_cache := (cache_key, (result, env.now_ts, block_number)) :: st.pool_cache
               last_cache_block := block_number },
             1 + env.fetch_rpc_count)
        | none => (none, st, 1 + env.fetch_rpc_count)

/-! ## Historical entry resolver (`blockchain.py`, `get_initial_position_entry`) -/

/-- Embedding of `price_utils.is_stablecoin` (src/price_utils.py lines 9-17). -/
def stablecoin_symbols : List String :=
  ["USDC", "USDT", "USD₮0", "USDe", "DAI", "BUSD", "TUSD", "FRAX",
   "USDD", "GUSD", "USDP", "SUSD", "LUSD", "UST", "CUSD", "USDN",
   "RSV", "MUSD", "USDX", "USDK", "USDS", "DUSD", "USD", "USDJ"]

/-- Check whether a token symbol is a stablecoin, exactly as
`price_utils.is_stablecoin`. -/
def is_stablecoin (token_symbol : String) : Bool :=
  (stablecoin_symbols.map String.toUpper).contains token_symbol.toUpper

/-- One decoded `IncreaseLiquidity` log: its block and the two raw token
amounts carried in the log data (src/blockchain.py lines 1092-1095). -/
structure IncreaseLog where
  blockNumber : ℕ
  amount0_wei : ℕ
  amount1_wei : ℕ
deriving Repr, DecidableEq

/-- The position fields consumed by `get_initial_position_entry`. -/
structure EntryPosition where
  token_id : ℕ
  position_manager : String
  token0_decimals : ℕ
  token1_decimals : ℕ
  token0_symbol : String
  token1_symbol : String
  pool_address : Option String
deriving Repr, DecidableEq

/-- Chain environment for one `get_initial_position_entry` call.
`mint_block` is the outcome of the chunked backward mint-event search (each
chunk query is individually wrapped in `try`, so a failure is the same as not
finding the event); `increase_logs s e` is the `get_logs` query for
`IncreaseLiquidity` events over blocks `[s, e]`, where `none` models the
query raising; `block_timestamp` is `get_block(creation_block).timestamp`
(`none` models a raise); `pool_address_lookup` is the `get_pool_address`
fallback; `pool_price_at_block` is `_get_pool_price_at_block`, which returns
`None` on any failure. -/
structure EntryEnv where
  current_block : ℕ
  mint_block : Option ℕ
  increase_logs : ℕ → ℕ → Option (List IncreaseLog)
  block_timestamp : Option ℕ
  pool_address_lookup : Option String
  pool_price_at_block : Option ℚ

/-- The dict returned by `get_initial_position_entry`
(src/blockchain.py lines 1149-1158).  The source stores
`entry_price or 0`, a plain number, so the field is `ℚ`, not `Option ℚ`. -/
structure EntryResult where
  block_number : ℕ
  timestamp : ℕ
  amount0 : ℚ
  amount1 : ℚ
  entry_price : ℚ
  entry_token0_price_usd : Option ℚ
  entry_token1_price_usd : Option ℚ
  entry_value_usd : Option ℚ
deriving Repr, DecidableEq

/-- The `_initial_liquidity_cache` of `BlockchainManager`, keyed by
`(token_id, position_manager)`; a stored `none` records a failed fetch. -/
def EntryCache : Type := List ((ℕ × String) × Option EntryResult)

/-- Start of the `IncreaseLiquidity` search range
(src/blockchain.py line 1062): the creation block when a mint was found,
else `max(0, current_block - 4000)` (truncated subtraction on `ℕ`). -/
def entry_search_start (env : EntryEnv) : ℕ :=
  match env.mint_block with
  | some cb => cb
  | none => env.current_block - 4000

/-- End of the `IncreaseLiquidity` search range
(src/blockchain.py line 1064): `creation_block + 50` when a mint was found,
else the current block. -/
def entry_search_end (env : EntryEnv) : ℕ :=
  match env.mint_block with
  | some cb => cb + 50
  | none => env.current_block

/-- Embedding of `BlockchainManager.get_initial_position_entry`
(src/blockchain.py lines 1003-1173).  The whole body is wrapped in
`try`/`except` returning (and caching) `None`, so every oracle failure maps
to a `none` result; the function itself is total, never raising.  Mirrors the
source exactly: cached entries (including cached `None`) are returned
immediately; a missing mint event falls back to the first
`IncreaseLiquidity` event for the creation block; the stored `entry_price`
is `entry_price or 0`. -/
def get_initial_position_entry (cache : EntryCache) (env : EntryEnv)
    (pos : EntryPosition) : Option EntryResult × EntryCache :=
  let cache_key := (pos.token_id, pos.position_manager)
  match List.lookup cache_key cache with
  | some cached => (cached, cache)
  | none =>
    match env.increase_logs (entry_search_start env) (entry_search_end env) with
    | none => (none, (cache_key, none) :: cache)
    | some increase_logs =>
      match increase_logs.head? with
      | none => (none, (cache_key, none) :: cache)
      | some first_increase =>
        let creation_block := (env.mint_block).getD first_increase.blockNumber
        let amount0 : ℚ := (first_increase.amount0_wei : ℚ) / 10 ^ pos.token0_decimals
        let amount1 : ℚ := (first_increase.amount1_wei : ℚ) / 10 ^ pos.token1_decimals
        match env.block_timestamp with
        | none => (none, (cache_key, none) :: cache)
        | some ts =>
          let pool_address : Option String :=
            match pos.pool_address with
            | some a => some a
            | none => env.pool_address_lookup
          let entry_price : Option ℚ :=
            match pool_address with
            | some _ => env.pool_price_at_block
            | none => none
          let usd : Option ℚ × Option ℚ :=
            match entry_price with
            | some p =>
                if is_stablecoin pos.token1_symbol then (some p, some 1)
                else if is_stablecoin pos.token0_symbol then
                  (some 1, some (if 0 < p then 1 / p else 0))
                else (none, none)
            | none => (none, none)
          let entry_value_usd : Option ℚ :=
            match usd.1, usd.2 with
            | some a, some b => some (amount0 * a + amount1 * b)
            | _, _ => none
          let result : EntryResult :=
            { block_number := creation_block
              timestamp := ts
              amount0 := amount0
              amount1 := amount1
              entry_price := entry_price.getD 0
              entry_token0_price_usd := usd.1
              entry_token1_price_usd := usd.2
              entry_value_usd := entry_value_usd }
          (some result, (cache_key, some result) :: cache)

/-! ## RPC rate limiter (`blockchain.py`, `_throttle_rpc`) -/

/-- The `_rpm_limit` budget of 90 calls per minute (src/blockchain.py
line 66).  The early return for `_rpm_limit <= 0` is dead for this value and
is not modelled. -/
def rpm_limit : ℕ := 90

/-- The 60-second rolling window (src/blockchain.py line 73). -/
def rpc_window : ℚ := 60

/-- Embedding of `BlockchainManager._throttle_rpc` (src/blockchain.py
lines 69-83).  The deque `_rpc_call_times` is a list of call timestamps in
arrival order; `now` is the `time.time()` read at entry.  The function
returns the deque after the call is recorded together with the time at
which the call is actually issued: `time.sleep` is modelled as advancing
the clock by exactly the requested amount, and the post-sleep
`time.time()` that is appended is that advanced clock. -/
def throttle_rpc (q : List ℚ) (now : ℚ) : List ℚ × ℚ :=
  let q1 := q.dropWhile (fun t => decide (rpc_window < now - t))
  if rpm_limit ≤ q1.length then
    match q1 with
    | [] => (q1 ++ [now], now)
    | oldest :: _ =>
        let sleep_for := rpc_window - (now - oldest) + 1 / 20
        let t := if 0 < sleep_for then now + sleep_for else now
        (q1 ++ [t], t)
  else (q1 ++ [now], now)

/-- Membership of a timestamp in the trailing window `[T - 60, T]`. -/
def in_window (T t : ℚ) : Bool :=
  decide (T - rpc_window ≤ t) && decide (t ≤ T)

/-- First half of `_throttle_rpc` (src/blockchain.py lines 72-81), up to but
not including the final append: read the clock, pop the expired timestamps
off the shared deque, and determine the time at which this caller will
record its call -- `now` itself, or the wake-up time after the computed
sleep when the trimmed deque has reached the budget.  The individual deque
operations are atomic in CPython, but `_throttle_rpc` takes no lock around
the whole read-trim-check-sleep-append sequence, and it is reached
concurrently by the position-check worker threads
(position_monitor.py lines 545-548, up to 8 workers, and the notification
paths) through `_rl_call`; between one caller running this half and running
the append below, other callers can run either half. -/
def throttle_obs (q : List ℚ) (now : ℚ) : List ℚ × ℚ :=
  let q1 := q.dropWhile (fun t => decide (rpc_window < now - t))
  if rpm_limit ≤ q1.length then
    match q1 with
    | [] => (q1, now)
    | oldest :: _ =>
        let sleep_for := rpc_window - (now - oldest) + 1 / 20
        (q1, if 0 < sleep_for then now + sleep_for else now)
  else (q1, now)

/-- Second half of `_throttle_rpc` (src/blockchain.py line 83): append this
caller timestamp to the shared deque. -/
def throttle_app (q : List ℚ) (t : ℚ) : List ℚ :=
  q ++ [t]

/-- Sanity of the decomposition: the two halves run back to back with no
interleaved caller are exactly the atomic `throttle_rpc`, so
`throttle_obs`/`throttle_app` faithfully split the source function. -/
theorem throttle_rpc_eq_obs_then_app (q : List ℚ) (now : ℚ) :
    throttle_rpc q now =
      (throttle_app (throttle_obs q now).1 (throttle_obs q now).2,
       (throttle_obs q now).2) := by
  by_cases h : rpm_limit ≤ (q.dropWhile (fun t => decide (rpc_window < now - t))).length
  · cases heq : q.dropWhile (fun t => decide (rpc_window < now - t)) with
    | nil =>
        rw [heq] at h
        simp [rpm_limit] at h
    | cons oldest tail =>
        have h2 : rpm_limit ≤ (oldest :: tail).length := by
          rw [heq] at h
          exact h
        simp only [throttle_rpc, throttle_obs, throttle_app, heq, if_pos h2]
  · simp only [throttle_rpc, throttle_obs, throttle_app, if_neg h]

/-! ## Theorem for claim C4 (rate limiter) -/

/-- C4: the claim states that at every point in any execution the recorded
timestamps inside any trailing 60-second window never exceed the budget of
90, a would-be excess caller blocking until the oldest call leaves the
window.  The limiter is lockless and shared by concurrent worker threads,
so the check-then-append sequences of two callers can interleave.  This
theorem exhibits the failing execution: from any deque one call below the
budget, all of it inside the current window, two callers both run the
trim-and-check half -- each sees 89 < 90 and skips the sleep -- and then
both append, leaving `rpm_limit + 1 = 91` timestamps inside the trailing
window ending at their common call time, exceeding the budget.  The same
two calls serialized through the atomic `throttle_rpc` leave that window
holding exactly `rpm_limit`, so the violation comes precisely from the
missing mutual exclusion around read-trim-sleep-append. -/
theorem rate_limiter_race_oversubscribes_budget (q : List ℚ) (now : ℚ)
    (hlen : q.length + 1 = rpm_limit)
    (hfresh : ∀ t ∈ q, ¬ rpc_window < now - t)
    (hpast : ∀ t ∈ q, t ≤ now) :
    (throttle_app
        (throttle_app (throttle_obs (throttle_obs q now).1 now).1
          (throttle_obs q now).2)
        (throttle_obs (throttle_obs q now).1 now).2).countP (in_window now) =
      rpm_limit + 1 ∧
    rpm_limit < rpm_limit + 1 ∧
    ((throttle_rpc (throttle_rpc q now).1 now).1).countP (in_window now) =
      rpm_limit := by
  cases q with
  | nil => simp [rpm_limit] at hlen
  | cons a rest =>
  have hrw : (0 : ℚ) ≤ rpc_window := by norm_num [rpc_window]
  have hpa : ¬ rpc_window < now - a := hfresh a (List.mem_cons_self a rest)
  have hpa2 : now - a ≤ rpc_window := not_lt.mp hpa
  have hdrop : (a :: rest).dropWhile (fun t => decide (rpc_window < now - t)) =
      a :: rest := by
    rw [List.dropWhile_cons, if_neg]
    simpa using hpa
  have hnotle : ¬ rpm_limit ≤ (a :: rest).length := by omega
  have hobs : throttle_obs (a :: rest) now = (a :: rest, now) := by
    simp only [throttle_obs, hdrop]
    rw [if_neg hnotle]
  have hwindow : ∀ x ∈ a :: rest, in_window now x = true := by
    intro x hx
    have h1 := hfresh x hx
    have h2 := hpast x hx
    push_neg at h1
    simp only [in_window, Bool.and_eq_true, decide_eq_true_eq]
    exact ⟨by linarith, h2⟩
  have hwnow : in_window now now = true := by
    simp only [in_window, Bool.and_eq_true, decide_eq_true_eq]
    exact ⟨by linarith, le_refl now⟩
  refine ⟨?_, Nat.lt_succ_self _, ?_⟩
  · simp only [hobs, throttle_app]
    have hall : ∀ x ∈ ((a :: rest) ++ [now]) ++ [now], in_window now x = true := by
      intro x hx
      rcases List.mem_append.mp hx with hx1 | hx2
      · rcases List.mem_append.mp hx1 with hx3 | hx4
        · exact hwindow x hx3
        · rw [List.mem_singleton] at hx4
          subst hx4
          exact hwnow
      · rw [List.mem_singleton] at hx2
        subst hx2
        exact hwnow
    rw [List.countP_eq_length.mpr hall]
    simp only [List.length_append, List.length_cons, List.length_nil]
    simp only [List.length_cons] at hlen
    omega
  · have hfirst : throttle_rpc (a :: rest) now = ((a :: rest) ++ [now], now) := by
      simp only [throttle_rpc, hdrop]
      rw [if_neg hnotle]
    rw [hfirst]
    have hdrop2 : ((a :: rest) ++ [now]).dropWhile
        (fun t => decide (rpc_window < now - t)) = a :: (rest ++ [now]) := by
      rw [List.cons_append, List.dropWhile_cons, if_neg]
      simpa using hpa
    have hlen2 : rpm_limit ≤ (a :: (rest ++ [now])).length := by
      simp only [List.length_cons, List.length_append, List.length_nil]
      simp only [List.length_cons] at hlen
      omega
    have hsleep : 0 < rpc_window - (now - a) + 1 / 20 := by
      have h20 : (0 : ℚ) < 1 / 20 := by norm_num
      linarith
    have hsecond : throttle_rpc ((a :: rest) ++ [now]) now =
        ((a :: (rest ++ [now])) ++ [now + (rpc_window - (now - a) + 1 / 20)],
         now + (rpc_window - (now - a) + 1 / 20)) := by
      simp only [throttle_rpc, hdrop2]
      rw [if_pos hlen2, if_pos hsleep]
    rw [hsecond]
    have hall2 : ∀ x ∈ a :: (rest ++ [now]), in_window now x = true := by
      intro x hx
      rcases List.mem_cons.mp hx with rfl | hx2
      · exact hwindow x (List.mem_cons_self x rest)
      · rcases List.mem_append.mp hx2 with hx3 | hx4
        · exact hwindow x (List.mem_cons_of_mem a hx3)
        · rw [List.mem_singleton] at hx4
          subst hx4
          exact hwnow
    have hzero : List.countP (in_window now)
        [now + (rpc_window - (now - a) + 1 / 20)] = 0 := by
      rw [List.countP_cons_of_neg, List.countP_nil]
      simp only [in_window, Bool.and_eq_true, decide_eq_true_eq, not_and]
      intro _
      exact not_le.mpr (by linarith)
    rw [List.countP_append, hzero, Nat.add_zero, List.countP_eq_length.mpr hall2]
    simp only [List.length_cons, List.length_append, List.length_nil]
    simp only [List.length_cons] at hlen
    omega

/-- Witness for C4: a concrete pre-state of 89 calls recorded at time 0 with
both racing callers arriving at time 1, by
`rate_limiter_race_oversubscribes_budget`. -/
theorem rate_limiter_race_oversubscribes_budget_witness :
    ((List.replicate 89 (0 : ℚ)).length + 1 = rpm_limit) ∧
    (throttle_app
        (throttle_app
          (throttle_obs (throttle_obs (List.replicate 89 (0 : ℚ)) 1).1 1).1
          (throttle_obs (List.replicate 89 (0 : ℚ)) 1).2)
        (throttle_obs (throttle_obs (List.replicate 89 (0 : ℚ)) 1).1 1).2).countP
      (in_window 1) = rpm_limit + 1 :=
  ⟨by decide,
   (rate_limiter_race_oversubscribes_budget (List.replicate 89 0) 1
     (by decide)
     (fun t ht => by rw [List.eq_of_mem_replicate ht, sub_zero]; decide)
     (fun t ht => by rw [List.eq_of_mem_replicate ht]; decide)).1⟩


/-! ## Position catalog reconciliation (`position_monitor.py`, `refresh_positions`) -/

/-- The identity of a catalog entry: the fields of the position dict that
`refresh_positions` keys on. -/
structure Position where
  dex_name : String
  token_id : ℕ
deriving Repr, DecidableEq

/-- The catalog key `f-string` `dex_name + "_" + token_id`
(src/position_monitor.py line 560). -/
def posKey (p : Position) : String :=
  p.dex_name ++ "_" ++ toString p.token_id

/-- Outcome of `fetch_positions_from_dex` for one DEX, as observed by
`refresh_positions`: `fetch_result = none` is the maintenance-mode `None`
sentinel (src/blockchain.py lines 738-741); `had_errors` is the
`had_errors` flag of `get_last_scan_status` recorded by the scan
(src/blockchain.py lines 853-878); `removed_hint_ids` is the `removed_ids`
set of `get_last_event_hints` (src/blockchain.py lines 712-730). -/
structure DexScan where
  name : String
  fetch_result : Option (List Position)
  had_errors : Bool
  removed_hint_ids : List ℕ
deriving Repr, DecidableEq

/-- The monitor state mutated by `refresh_positions`: `self.positions` and
`self._pending_removed_keys` (src/position_monitor.py lines 93-94). -/
structure MonitorState where
  positions : List Position
  pending_removed_keys : List String
deriving Repr, DecidableEq

/-- The pair returned by `refresh_positions` together with the mutated
state. -/
structure RefreshOutcome where
  state : MonitorState
  count_changed : Bool
  had_errors : Bool
deriving Repr, DecidableEq

/-- Embedding of `EnhancedLPMonitor.refresh_positions`
(src/position_monitor.py lines 553-645).  Sets are represented as lists with
membership up to duplicates; `added` and the final `removed` set are used by
the source only to print and notify, so they do not appear in the outcome.
Note the exact source order: on a full rescan the new list is committed to
`self.positions` (line 605, `self.positions = new_list`) before the
event-hint cross-check and the error debounce run; those later steps adjust
only the `removed` set used for reporting and the pending-removal set. -/
def refresh_positions (st : MonitorState) (silent force_full : Bool)
    (scans : List DexScan) : RefreshOutcome :=
  let old_positions_list := st.positions
  let old_count := old_positions_list.length
  let old_keys := old_positions_list.map posKey
  let step := fun (acc : List Position × Bool) (scan : DexScan) =>
    match scan.fetch_result with
    | none =>
        if silent then
          (acc.1 ++ old_positions_list.filter (fun p => p.dex_name == scan.name), acc.2)
        else
          (acc.1, acc.2 || scan.had_errors)
    | some ps => (acc.1 ++ ps, acc.2 || scan.had_errors)
  let folded := scans.foldl step ([], false)
  let new_list := folded.1
  let had_errors_any := folded.2
  let new_count := new_list.length
  let new_keys := new_list.map posKey
  if !force_full then
    { state := st, count_changed := false, had_errors := had_errors_any }
  else
    let removed := old_keys.filter (fun k => !(new_keys.contains k))
    let suspected_removed := scans.foldl (fun s scan =>
      s ++ (old_positions_list.filter (fun p =>
        p.dex_name == scan.name && scan.removed_hint_ids.contains p.token_id)).map posKey) []
    let event_confirmed_removed := removed.filter (fun k => suspected_removed.contains k)
    let pending_after :=
      if had_errors_any then
        st.pending_removed_keys ++
          (event_confirmed_removed.filter (fun k => !(st.pending_removed_keys.contains k)))
      else
        st.pending_removed_keys.filter (fun k => new_keys.contains k)
    { state := { positions := new_list, pending_removed_keys := pending_after }
      count_changed := new_count != old_count
      had_errors := had_errors_any }

/-! ## Theorems for claims C1, C2, C3 (reconciliation) -/

/-- C1: the claim states that a position key absent from the first error-free
full scan, with no corroborating outbound-transfer hint, is never removed
from the catalog by that first scan.  The code instead commits
`self.positions = new_list` before the debounce runs, so this theorem
evaluates the embedded `refresh_positions` at the failing input — a catalog
holding one position, one error-free full rescan that does not return it, no
event hints — and shows the catalog is already empty after the 1st scan. -/
theorem refresh_removes_on_first_absent_scan :
    (refresh_positions ⟨[⟨"hyperswap", 1⟩], []⟩ false true
        [⟨"hyperswap", some [], false, []⟩]).state.positions = [] ∧
    (refresh_positions ⟨[⟨"hyperswap", 1⟩], []⟩ false true
        [⟨"hyperswap", some [], false, []⟩]).had_errors = false := by
  constructor <;> rfl

/-- C2: the claim states that a full rescan with RPC errors removes nothing
from the catalog and records the absent keys in the pending-removal set.
The code instead commits `self.positions = new_list` unconditionally and
adds to the pending set only event-confirmed keys; this theorem evaluates
the embedded `refresh_positions` at the failing input — one position, an
errored full scan that does not return it, no event hints — and shows the
key is dropped from the catalog and is not recorded as pending. -/
theorem refresh_with_errors_still_drops_positions :
    (refresh_positions ⟨[⟨"hyperswap", 1⟩], []⟩ false true
        [⟨"hyperswap", some [], true, []⟩]).state.positions = [] ∧
    (refresh_positions ⟨[⟨"hyperswap", 1⟩], []⟩ false true
        [⟨"hyperswap", some [], true, []⟩]).state.pending_removed_keys = [] ∧
    (refresh_positions ⟨[⟨"hyperswap", 1⟩], []⟩ false true
        [⟨"hyperswap", some [], true, []⟩]).had_errors = true := by
  refine ⟨rfl, ?_, rfl⟩
  rfl

/-- C3: a maintenance cycle (`force_full = False`) in which every per-DEX
incremental scan succeeded with no detected changes (the `None` sentinel
from `fetch_positions_from_dex`) leaves the monitor state — the catalog and
the pending-removal set — exactly as it was: no position is added, removed
or replaced. -/
theorem maintenance_cycle_leaves_catalog_untouched (st : MonitorState)
    (scans : List DexScan)
    (_hnone : ∀ scan ∈ scans, scan.fetch_result = none) :
    (refresh_positions st true false scans).state = st := by
  rfl

/-- Witness for C3: a concrete maintenance cycle over two DEXes with no
detected changes, by `maintenance_cycle_leaves_catalog_untouched`. -/
theorem maintenance_cycle_leaves_catalog_untouched_witness :
    (∀ scan ∈ ([⟨"hyperswap", none, false, []⟩, ⟨"gliquid", none, false, [3]⟩] :
        List DexScan), scan.fetch_result = none) ∧
    (refresh_positions ⟨[⟨"hyperswap", 1⟩, ⟨"gliquid", 9⟩], ["gliquid_3"]⟩ true false
        [⟨"hyperswap", none, false, []⟩, ⟨"gliquid", none, false, [3]⟩]).state =
      ⟨[⟨"hyperswap", 1⟩, ⟨"gliquid", 9⟩], ["gliquid_3"]⟩ :=
  ⟨by decide,
   maintenance_cycle_leaves_catalog_untouched
     ⟨[⟨"hyperswap", 1⟩, ⟨"gliquid", 9⟩], ["gliquid_3"]⟩
     [⟨"hyperswap", none, false, []⟩, ⟨"gliquid", none, false, [3]⟩]
     (by decide)⟩

/-! ## Theorems for claims C7, C8, C9 -/

/-- C7: for every position and wallet, a failed simulated `collect()` call
yields a record with all four fee amounts zero, `has_fees = false` and an
error field holding the failure message; a successful call is issued with
`amount0Max = amount1Max = 2^128 - 1` and the wallet as recipient, and the
returned record carries no error field. -/
theorem get_unclaimed_fees_spec (collectCall : CollectParams → Except String (ℕ × ℕ))
    (pos : FeePosition) (wallet : String) :
    ((mk_collect_params pos wallet).amount0Max = 2 ^ 128 - 1 ∧
     (mk_collect_params pos wallet).amount1Max = 2 ^ 128 - 1 ∧
     (mk_collect_params pos wallet).recipient = wallet) ∧
    (∀ e, collectCall (mk_collect_params pos wallet) = Except.error e →
      get_unclaimed_fees collectCall pos wallet =
        { fee_amount0 := 0, fee_amount1 := 0, fee_amount0_wei := 0, fee_amount1_wei := 0,
          has_fees := false, error := some e }) ∧
    (∀ w0 w1, collectCall (mk_collect_params pos wallet) = Except.ok (w0, w1) →
      (get_unclaimed_fees collectCall pos wallet).error = none) := by
  refine ⟨⟨rfl, rfl, rfl⟩, ?_, ?_⟩
  · intro e he
    unfold get_unclaimed_fees
    rw [he]
  · intro w0 w1 hw
    unfold get_unclaimed_fees
    rw [hw]

/-- Witness for C7: a concrete failing oracle produces the zeroed record with
the error attached, by `get_unclaimed_fees_spec`. -/
theorem get_unclaimed_fees_spec_witness :
    ((fun _ : CollectParams => (Except.error "rate limited" : Except String (ℕ × ℕ)))
        (mk_collect_params ⟨7, "pm", 18, 6⟩ "wallet") = Except.error "rate limited") ∧
    get_unclaimed_fees (fun _ => Except.error "rate limited") ⟨7, "pm", 18, 6⟩ "wallet" =
      { fee_amount0 := 0, fee_amount1 := 0, fee_amount0_wei := 0, fee_amount1_wei := 0,
        has_fees := false, error := some "rate limited" } :=
  ⟨rfl, (get_unclaimed_fees_spec (fun _ => Except.error "rate limited")
    ⟨7, "pm", 18, 6⟩ "wallet").2.1 "rate limited" rfl⟩

/-- C8: `in_range` computed by `check_position_status` holds exactly when
`tick_lower <= current_tick <= tick_upper`, and whenever the current tick is
strictly above the upper tick the computed `amount0` is zero (the position is
wholly on the token1 side), for every liquidity and every sqrt model. -/
theorem check_position_status_range_spec (msqrt : ℚ → ℚ) (liquidity : ℚ)
    (tick_lower tick_upper current_tick : ℤ) (decimals0 decimals1 : ℕ) :
    ((check_position_status_core msqrt liquidity tick_lower tick_upper current_tick
        decimals0 decimals1).in_range = true ↔
      (tick_lower ≤ current_tick ∧ current_tick ≤ tick_upper)) ∧
    (tick_lower ≤ tick_upper → tick_upper < current_tick →
      (check_position_status_core msqrt liquidity tick_lower tick_upper current_tick
        decimals0 decimals1).amount0 = 0) := by
  constructor
  · simp [check_position_status_core]
  · intro hlu h
    have h1 : ¬ current_tick < tick_lower := by omega
    have h2 : tick_upper ≤ current_tick := le_of_lt h
    simp only [check_position_status_core, calculate_token_amounts, if_neg h1, if_pos h2]
    exact zero_div _

/-- Witness for C8: the spec scenario `tick_lower = -1000`, `tick_upper = 1000`,
`current_tick = 5000` gives `amount0 = 0`, by `check_position_status_range_spec`;
and `in_range` evaluates to `false` there. -/
theorem check_position_status_range_spec_witness :
    (1000 : ℤ) < 5000 ∧
    (check_position_status_core (fun q => q) 12345 (-1000) 1000 5000 18 18).amount0 = 0 ∧
    (check_position_status_core (fun q => q) 12345 (-1000) 1000 5000 18 18).in_range = false :=
  ⟨by decide,
   (check_position_status_range_spec (fun q => q) 12345 (-1000) 1000 5000 18 18).2
     (by decide) (by decide),
   by decide⟩

/-- C9: `tick_to_price` never raises; ticks above `800000` yield `+inf`, ticks
below `-800000` yield `0`, and every tick with `|tick| <= 800000` yields
`1.0001 ^ tick * 10 ^ (decimals0 - decimals1)` exactly. -/
theorem tick_to_price_spec (tick decimals0 decimals1 : ℤ) :
    (800000 < tick → tick_to_price tick decimals0 decimals1 = PriceVal.inf) ∧
    (tick < -800000 → tick_to_price tick decimals0 decimals1 = PriceVal.val 0) ∧
    (|tick| ≤ 800000 → tick_to_price tick decimals0 decimals1 =
      PriceVal.val ((10001 / 10000 : ℚ) ^ tick * (10 : ℚ) ^ (decimals0 - decimals1))) := by
  refine ⟨?_, ?_, ?_⟩
  · intro h
    have he : |tick| = tick := abs_of_pos (by omega)
    have hgt : 800000 < |tick| := by omega
    simp only [tick_to_price, if_pos hgt, if_pos h]
  · intro h
    have he : |tick| = -tick := abs_of_neg (by omega)
    have hgt : 800000 < |tick| := by omega
    have hng : ¬ 800000 < tick := by omega
    simp only [tick_to_price, if_pos hgt, if_neg hng]
  · intro h
    have hng : ¬ 800000 < |tick| := not_lt.mpr h
    simp only [tick_to_price, if_neg hng]

/-- Witness for C9: `tick_to_price` at ticks `900000`, `-900000` and `0`, by
`tick_to_price_spec`. -/
theorem tick_to_price_spec_witness :
    (800000 : ℤ) < 900000 ∧
    tick_to_price 900000 18 6 = PriceVal.inf ∧
    tick_to_price (-900000) 18 6 = PriceVal.val 0 ∧
    tick_to_price 0 18 6 =
      PriceVal.val ((10001 / 10000 : ℚ) ^ (0 : ℤ) * (10 : ℚ) ^ ((18 : ℤ) - 6)) :=
  ⟨by decide,
   (tick_to_price_spec 900000 18 6).1 (by decide),
   (tick_to_price_spec (-900000) 18 6).2.1 (by decide),
   (tick_to_price_spec 0 18 6).2.2 (by decide)⟩

/-! ## Theorems for claim C5 (pool-data cache) -/

/-- C5 counterexample: a second `get_pool_data_flexible` call at the same
block with a warm, unexpired cache entry still issues one RPC call (the
unconditional `w3.eth.block_number` read), refuting "issues no additional
RPC call" at a concrete input. -/
theorem pool_cache_warm_hit_rpc_counterexample :
    (get_pool_data_flexible
      (get_pool_data_flexible ⟨[], none⟩
        ⟨some 500, 0, some ⟨100, 79228162514264337593543950336, 1, "uniswap_v3"⟩, 3⟩
        "0xPOOL" "uniswap_v3").2.1
      ⟨some 500, 2, some ⟨100, 79228162514264337593543950336, 1, "uniswap_v3"⟩, 3⟩
      "0xPOOL" "uniswap_v3").2.2 ≠ 0 := by decide

/-- C5 (amended): calling `get_pool_data_flexible` a second time at the same
block with a warm, unexpired cache entry returns a `PoolState` identical to
the first call's result, mutates no cache state, and issues no pool-data
fetch RPC; the only RPC issued by the second call is the single
block-number read performed unconditionally on every call. -/
theorem pool_cache_warm_hit_spec (st : PoolCacheState) (env env2 : PoolFetchEnv)
    (pool_address dex_type : String) (r : PoolData)
    (hpool : ¬ pool_address = "")
    (hcold : st.pool_cache.lookup (pool_address, dex_type) = none)
    (hfetch : env.fetch_result = some r)
    (httl : env2.now_ts - env.now_ts ≤ pool_cache_ttl_seconds)
    (_hblk : env2.block_number = env.block_number) :
    (get_pool_data_flexible st env pool_address dex_type).1 = some r ∧
    (get_pool_data_flexible
        (get_pool_data_flexible st env pool_address dex_type).2.1
        env2 pool_address dex_type).1 = some r ∧
    (get_pool_data_flexible
        (get_pool_data_flexible st env pool_address dex_type).2.1
        env2 pool_address dex_type).2.1 =
      (get_pool_data_flexible st env pool_address dex_type).2.1 ∧
    (get_pool_data_flexible
        (get_pool_data_flexible st env pool_address dex_type).2.1
        env2 pool_address dex_type).2.2 = 1 := by
  have hfirst : get_pool_data_flexible st env pool_address dex_type =
      (some r,
       { pool_cache := ((pool_address, dex_type), (r, env.now_ts, env.block_number)) ::
           st.pool_cache
         last_cache_block := env.block_number },
       1 + env.fetch_rpc_count) := by
    simp only [get_pool_data_flexible, if_neg hpool, hcold, hfetch]
  have hsecond : get_pool_data_flexible
      (get_pool_data_flexible st env pool_address dex_type).2.1
      env2 pool_address dex_type =
      (some r, (get_pool_data_flexible st env pool_address dex_type).2.1, 1) := by
    rw [hfirst]
    simp only [get_pool_data_flexible, if_neg hpool, List.lookup_cons_self]
    rw [if_pos ⟨httl, Or.inl trivial⟩]
  exact ⟨by rw [hfirst], by rw [hsecond], by rw [hsecond], by rw [hsecond]⟩

/-- Witness for C5 (amended): a concrete cold state, fetch, and warm re-read,
by `pool_cache_warm_hit_spec`. -/
theorem pool_cache_warm_hit_spec_witness :
    (¬ "0xPOOL" = "") ∧
    (get_pool_data_flexible
        (get_pool_data_flexible ⟨[], none⟩
          ⟨some 500, 0, some ⟨100, 79228162514264337593543950336, 1, "uniswap_v3"⟩, 3⟩
          "0xPOOL" "uniswap_v3").2.1
        ⟨some 500, 2, some ⟨-5, 1, 2, "other"⟩, 7⟩
        "0xPOOL" "uniswap_v3").1 =
      some ⟨100, 79228162514264337593543950336, 1, "uniswap_v3"⟩ ∧
    (get_pool_data_flexible
        (get_pool_data_flexible ⟨[], none⟩
          ⟨some 500, 0, some ⟨100, 79228162514264337593543950336, 1, "uniswap_v3"⟩, 3⟩
          "0xPOOL" "uniswap_v3").2.1
        ⟨some 500, 2, some ⟨-5, 1, 2, "other"⟩, 7⟩
        "0xPOOL" "uniswap_v3").2.2 = 1 :=
  ⟨by decide,
   (pool_cache_warm_hit_spec ⟨[], none⟩
     ⟨some 500, 0, some ⟨100, 79228162514264337593543950336, 1, "uniswap_v3"⟩, 3⟩
     ⟨some 500, 2, some ⟨-5, 1, 2, "other"⟩, 7⟩
     "0xPOOL" "uniswap_v3" ⟨100, 79228162514264337593543950336, 1, "uniswap_v3"⟩
     (by decide) rfl rfl (by decide) rfl).2.1,
   (pool_cache_warm_hit_spec ⟨[], none⟩
     ⟨some 500, 0, some ⟨100, 79228162514264337593543950336, 1, "uniswap_v3"⟩, 3⟩
     ⟨some 500, 2, some ⟨-5, 1, 2, "other"⟩, 7⟩
     "0xPOOL" "uniswap_v3" ⟨100, 79228162514264337593543950336, 1, "uniswap_v3"⟩
     (by decide) rfl rfl (by decide) rfl).2.2.2⟩

/-! ## Theorems for claims C6 and C10 (historical entry resolver) -/

/-- C6 counterexample: with every chain read succeeding except the historical
price read, `get_initial_position_entry` returns a record whose
`entry_price` is `0` — the source stores `entry_price or 0` — refuting
"leaves the entry price null, never zero, in the returned record" at a
concrete input. -/
theorem entry_price_zero_counterexample :
    ((get_initial_position_entry []
        { current_block := 10000
          mint_block := some 9000
          increase_logs := fun _ _ => some [⟨9000, 5000000, 7000000⟩]
          block_timestamp := some 1700000000
          pool_address_lookup := none
          pool_price_at_block := none }
        ⟨42, "0xPM", 18, 6, "HYPE", "USDC", some "0xPOOL"⟩).1.map
      (fun r => r.entry_price)) = some 0 := by decide

/-- C6 (amended): `get_initial_position_entry` is total (never raises) and
each failure degrades only what it must: a failed or empty
`IncreaseLiquidity` query yields a `none` result instead of an exception; a
missing mint event still yields a result whose creation block comes from the
first `IncreaseLiquidity` event; and a failed historical price read still
yields a record, with `entry_price` stored as `0` (not null — the source
writes `entry_price or 0`) and the USD-derived fields null. -/
theorem get_initial_position_entry_spec (cache : EntryCache) (env : EntryEnv)
    (pos : EntryPosition)
    (hmiss : List.lookup (pos.token_id, pos.position_manager) cache = none) :
    (env.increase_logs (entry_search_start env) (entry_search_end env) = none →
      (get_initial_position_entry cache env pos).1 = none) ∧
    (env.increase_logs (entry_search_start env) (entry_search_end env) = some [] →
      (get_initial_position_entry cache env pos).1 = none) ∧
    (∀ first rest ts, env.mint_block = none →
      env.increase_logs (entry_search_start env) (entry_search_end env) =
        some (first :: rest) →
      env.block_timestamp = some ts →
      ((get_initial_position_entry cache env pos).1.map (fun r => r.block_number)) =
        some first.blockNumber) ∧
    (∀ first rest ts a,
      env.increase_logs (entry_search_start env) (entry_search_end env) =
        some (first :: rest) →
      env.block_timestamp = some ts →
      pos.pool_address = some a →
      env.pool_price_at_block = none →
      ((get_initial_position_entry cache env pos).1.map (fun r => r.entry_price)) =
          some 0 ∧
        ((get_initial_position_entry cache env pos).1.map
          (fun r => r.entry_token0_price_usd)) = some none ∧
        ((get_initial_position_entry cache env pos).1.map
          (fun r => r.entry_token1_price_usd)) = some none ∧
        ((get_initial_position_entry cache env pos).1.map
          (fun r => r.entry_value_usd)) = some none) := by
  refine ⟨?_, ?_, ?_, ?_⟩
  · intro hlogs
    simp only [get_initial_position_entry, hmiss, hlogs]
  · intro hlogs
    simp only [get_initial_position_entry, hmiss, hlogs, List.head?]
  · intro first rest ts hmint hlogs hts
    simp [get_initial_position_entry, hmiss, hlogs, hts, hmint]
  · intro first rest ts a hlogs hts haddr hprice
    refine ⟨?_, ?_, ?_, ?_⟩ <;>
      simp [get_initial_position_entry, hmiss, hlogs, hts, haddr, hprice]

/-- Witness for C6 (amended): a concrete environment whose price read fails,
by `get_initial_position_entry_spec`. -/
theorem get_initial_position_entry_spec_witness :
    (List.lookup ((42 : ℕ), "0xPM")
      ([] : List ((ℕ × String) × Option EntryResult)) = none) ∧
    ((get_initial_position_entry []
        { current_block := 10000
          mint_block := some 9000
          increase_logs := fun _ _ => some [⟨9000, 5000000, 7000000⟩]
          block_timestamp := some 1700000000
          pool_address_lookup := none
          pool_price_at_block := none }
        ⟨42, "0xPM", 18, 6, "HYPE", "USDC", some "0xPOOL"⟩).1.map
      (fun r => r.entry_price)) = some 0 :=
  ⟨rfl,
   ((get_initial_position_entry_spec []
     { current_block := 10000
       mint_block := some 9000
       increase_logs := fun _ _ => some [⟨9000, 5000000, 7000000⟩]
       block_timestamp := some 1700000000
       pool_address_lookup := none
       pool_price_at_block := none }
     ⟨42, "0xPM", 18, 6, "HYPE", "USDC", some "0xPOOL"⟩ rfl).2.2.2
     ⟨9000, 5000000, 7000000⟩ [] 1700000000 "0xPOOL" rfl rfl rfl rfl).1⟩

/-- C10: once `get_initial_position_entry` fails for a position, the failure
is cached as `none` under `(token_id, position_manager)`, and every later
call for the same position — under any chain environment whatsoever —
returns the cached `none` without consulting the chain and without changing
the cache. -/
theorem entry_failure_cached_permanently (cache : EntryCache) (env : EntryEnv)
    (pos : EntryPosition)
    (hmiss : List.lookup (pos.token_id, pos.position_manager) cache = none)
    (hfail : env.increase_logs (entry_search_start env) (entry_search_end env) = none) :
    (get_initial_position_entry cache env pos).1 = none ∧
    List.lookup (pos.token_id, pos.position_manager)
      (get_initial_position_entry cache env pos).2 = some none ∧
    ∀ env2 : EntryEnv,
      get_initial_position_entry (get_initial_position_entry cache env pos).2 env2 pos =
        (none, (get_initial_position_entry cache env pos).2) := by
  have hout : get_initial_position_entry cache env pos =
      (none, ((pos.token_id, pos.position_manager), none) :: cache) := by
    simp only [get_initial_position_entry, hmiss, hfail]
  refine ⟨by rw [hout], ?_, ?_⟩
  · rw [hout]
    exact List.lookup_cons_self
  · intro env2
    rw [hout]
    simp only [get_initial_position_entry, List.lookup_cons_self]

/-- Witness for C10: a concrete failing first call followed by a second call
under a fully healthy environment still returns `none`, by
`entry_failure_cached_permanently`. -/
theorem entry_failure_cached_permanently_witness :
    (List.lookup ((42 : ℕ), "0xPM")
      ([] : List ((ℕ × String) × Option EntryResult)) = none) ∧
    get_initial_position_entry
      (get_initial_position_entry []
        { current_block := 10000
          mint_block := none
          increase_logs := fun _ _ => none
          block_timestamp := none
          pool_address_lookup := none
          pool_price_at_block := none }
        ⟨42, "0xPM", 18, 6, "HYPE", "USDC", some "0xPOOL"⟩).2
      { current_block := 20000
        mint_block := some 9000
        increase_logs := fun _ _ => some [⟨9000, 5000000, 7000000⟩]
        block_timestamp := some 1700000000
        pool_address_lookup := none
        pool_price_at_block := some 25 }
      ⟨42, "0xPM", 18, 6, "HYPE", "USDC", some "0xPOOL"⟩ =
      (none,
       (get_initial_position_entry []
        { current_block := 10000
          mint_block := none
          increase_logs := fun _ _ => none
          block_timestamp := none
          pool_address_lookup := none
          pool_price_at_block := none }
        ⟨42, "0xPM", 18, 6, "HYPE", "USDC", some "0xPOOL"⟩).2) :=
  ⟨rfl,
   (entry_failure_cached_permanently []
     { current_block := 10000
       mint_block := none
       increase_logs := fun _ _ => none
       block_timestamp := none
       pool_address_lookup := none
       pool_price_at_block := none }
     ⟨42, "0xPM", 18, 6, "HYPE", "USDC", some "0xPOOL"⟩ rfl rfl).2.2
     { current_block := 20000
       mint_block := some 9000
       increase_logs := fun _ _ => some [⟨9000, 5000000, 7000000⟩]
       block_timestamp := some 1700000000
       pool_address_lookup := none
       pool_price_at_block := some 25 }⟩

end LPMonitor
